import Mathlib

/-!
Shallow embedding of the probe-and-alert evaluation policy of
`src/app.py` (website-response-status-code-monitoring).

The network and the SMTP alert channel are modelled by an explicit
environment (`ProbeEnv`) that records, for one invocation of
`check_website`, the outcome of each of the three latency-sampling GET
requests, the outcome of the classification GET, and whether the alert
channel (`send_alert`, which performs SMTP I/O) raises when invoked.
Elapsed times and thresholds are modelled as rationals.  `check_website`
returns the list of `send_alert` invocations made during the call,
together with either the returned result record or the exception that
propagated to the caller.
-/

namespace WebsiteMonitor

/-- HTTP Status Code Dictionary (`HTTP_CODES` in src/app.py, lines 12-35),
as an association list of (code, reason phrase). -/
def HTTP_CODES : List (Int × String) :=
  [(100, "Continue"), (101, "Switching protocols"), (102, "Processing"), (103, "Early Hints"),
   (200, "OK"), (201, "Created"), (202, "Accepted"), (203, "Non-Authoritative Information"),
   (204, "No Content"), (205, "Reset Content"), (206, "Partial Content"), (207, "Multi-Status"),
   (208, "Already Reported"), (226, "IM Used"),
   (300, "Multiple Choices"), (301, "Moved Permanently"), (302, "Found"),
   (303, "See Other"), (304, "Not Modified"), (305, "Use Proxy"), (307, "Temporary Redirect"),
   (308, "Permanent Redirect"),
   (400, "Bad Request"), (401, "Unauthorized"), (402, "Payment Required"), (403, "Forbidden"),
   (404, "Not Found"), (405, "Method Not Allowed"), (406, "Not Acceptable"),
   (407, "Proxy Authentication Required"), (408, "Request Timeout"), (409, "Conflict"),
   (410, "Gone"), (411, "Length Required"), (412, "Precondition Failed"),
   (413, "Payload Too Large"), (414, "URI Too Long"), (415, "Unsupported Media Type"),
   (416, "Range Not Satisfiable"), (417, "Expectation Failed"), (418, "I\x27m a Teapot"),
   (421, "Misdirected Request"), (422, "Unprocessable Entity"), (423, "Locked"),
   (424, "Failed Dependency"), (425, "Too Early"), (426, "Upgrade Required"),
   (428, "Precondition Required"), (429, "Too Many Requests"),
   (431, "Request Header Fields Too Large"), (451, "Unavailable For Legal Reasons"),
   (500, "Internal Server Error"), (501, "Not Implemented"), (502, "Bad Gateway"),
   (503, "Service Unavailable"), (504, "Gateway Timeout"),
   (505, "HTTP Version Not Supported"), (506, "Variant Also Negotiates"),
   (507, "Insufficient Storage"), (508, "Loop Detected"), (510, "Not Extended"),
   (511, "Network Authentication Required")]

/-- `get_status_description` (src/app.py line 37-38):
`HTTP_CODES.get(code, "Unknown Status Code")`. -/
def get_status_description (code : Int) : String :=
  (HTTP_CODES.lookup code).getD "Unknown Status Code"

/-- One invocation of `send_alert` (src/app.py lines 40-64), recorded as
the arguments it was called with.  The body of `send_alert` only formats
and delivers an email; its observable interface is this argument tuple. -/
structure AlertCall where
  url : String
  status_code : Int
  speed : Option ℚ
  error : Option String
deriving Repr, DecidableEq

/-- The result `dict` built by `check_website`.  The source stores the
numeric code and its description together in one display string
(`f-string` at line 85: code followed by the description, or the literal
`Error - Connection Failed` at line 99); we keep the numeric code and the
description as separate fields so that presence/absence of the status
code is observable, and keep the failure branch marker in
`status_display`.  The `Last Checked` timestamp field is wall-clock
formatting only and is not modelled. -/
structure ProbeResult where
  url : String
  status_code : Option Int
  status_display : String
  speed : Option ℚ
  error : Option String
deriving Repr, DecidableEq

/-- The outcomes, for one `check_website` call, of all external effects:
the three latency-sampling GETs (line 68-75; `some t` = success with
elapsed time `t`, `none` = any exception, swallowed by the bare
`except: continue`), the classification GET (line 80; `Except.ok code` =
response with that status code, `Except.error e` = a
`requests.RequestException` with text `e`), and whether `send_alert`
raises when invoked (SMTP failure or missing secrets; not a
`requests.RequestException`, hence not caught anywhere in
`check_website`). -/
structure ProbeEnv where
  samples : Fin 3 → Option ℚ
  classification : Except String Int
  alertFails : Bool

/-- The list of successfully recorded elapsed times, in attempt order
(`speeds` in src/app.py lines 67-75). -/
def sampleSpeeds (env : ProbeEnv) : List ℚ :=
  (List.finRange 3).filterMap env.samples

/-- `avg_speed = statistics.mean(speeds) if speeds else None`
(src/app.py line 77). -/
def avg_speed_of (env : ProbeEnv) : Option ℚ :=
  let speeds := sampleSpeeds env
  if speeds.isEmpty then none
  else some (speeds.sum / (speeds.length : ℚ))

/-- Python truthiness of the optional float `avg_speed`: `None` and `0.0`
are falsy, every other float is truthy. -/
def qTruthy : Option ℚ → Bool
  | none => false
  | some x => decide (x ≠ 0)

/-- Python `round(x, 2)`: round to 2 decimal places, ties to even. -/
def round2 (x : ℚ) : ℚ :=
  let y := x * 100
  let f : ℤ := Int.floor y
  let r := y - (f : ℚ)
  let n : ℤ :=
    if r < 1/2 then f
    else if r > 1/2 then f + 1
    else if f % 2 = 0 then f else f + 1
  (n : ℚ) / 100

/-- The alert guard of src/app.py line 90:
`response.status_code != 200 or (avg_speed and avg_speed > speed_threshold)`.
The second disjunct is Python truthiness of `avg_speed` (so it cannot
fire when `avg_speed` is `None` or exactly `0.0`) followed by the
comparison. -/
def alert_condition (code : Int) (avg_speed : Option ℚ) (speed_threshold : ℚ) : Bool :=
  decide (code ≠ 200) || (qTruthy avg_speed && decide (avg_speed.getD 0 > speed_threshold))

/-- `check_website` (src/app.py lines 66-103), evaluated against an
environment of external outcomes.  Returns the list of `send_alert`
invocations made, and `Except.ok result` when the function returns the
result `dict`, or `Except.error msg` when an exception propagates to the
caller (which happens exactly when `send_alert` is invoked and raises:
an SMTP exception is not a `requests.RequestException`, so neither the
`try` at line 79 nor anything else catches it). -/
def check_website (url : String) (speed_threshold : ℚ) (env : ProbeEnv) :
    List AlertCall × Except String ProbeResult :=
  let avg_speed := avg_speed_of env
  match env.classification with
  | .ok code =>
      let status_desc := get_status_description code
      let result : ProbeResult :=
        { url := url
          status_code := some code
          status_display := status_desc
          speed := if qTruthy avg_speed then Option.map round2 avg_speed else none
          error := none }
      if alert_condition code avg_speed speed_threshold then
        let call : AlertCall :=
          { url := url, status_code := code, speed := avg_speed, error := none }
        if env.alertFails then ([call], .error "alert delivery failed")
        else ([call], .ok result)
      else ([], .ok result)
  | .error e =>
      let call : AlertCall :=
        { url := url, status_code := 0, speed := none, error := some e }
      let result : ProbeResult :=
        { url := url
          status_code := none
          status_display := "Error - Connection Failed"
          speed := none
          error := some e }
      if env.alertFails then ([call], .error "alert delivery failed")
      else ([call], .ok result)

/-- Modelled from the spec: the Configuration Store functions `init_db`,
`add_domain`, `remove_domain` and `get_domains` are called from the UI
(src/app.py lines 175-190, under the comment
`Database functions from the last code block`) but their definitions are
missing from src.  The spec describes `addOrUpdate(url, thresholdSeconds)`
as an upsert keyed by url: adding an existing URL overwrites its
threshold; the store is a list of (url, threshold) entries. -/
def add_domain (store : List (String × ℚ)) (url : String) (thr : ℚ) :
    List (String × ℚ) :=
  store.filter (fun p => p.1 ≠ url) ++ [(url, thr)]

/-- Modelled from the spec: `remove(url)` deletes the entry for `url`;
removing a URL not present is a no-op, not an error. -/
def remove_domain (store : List (String × ℚ)) (url : String) :
    List (String × ℚ) :=
  store.filter (fun p => p.1 ≠ url)

/-! ### Helper lemmas -/

theorem lookup_eq_none_of_not_mem_keys {α β : Type} [DecidableEq α]
    (l : List (α × β)) (a : α) (h : a ∉ l.map Prod.fst) : l.lookup a = none := by
  induction l with
  | nil => rfl
  | cons p t ih =>
      simp only [List.map_cons, List.mem_cons, not_or] at h
      obtain ⟨h1, h2⟩ := h
      obtain ⟨k, b⟩ := p
      simp only [List.lookup]
      rw [beq_eq_false_iff_ne.mpr h1]
      exact ih h2

/-- The alert guard is true iff the status code differs from 200 or the
average was computed, is truthy, and exceeds the threshold; for a positive
threshold, truthiness is subsumed by exceeding the threshold. -/
theorem alert_condition_true_iff (code : Int) (avg : Option ℚ) (thr : ℚ)
    (hthr : 0 < thr) :
    alert_condition code avg thr = true ↔
      code ≠ 200 ∨ ∃ a, avg = some a ∧ thr < a := by
  cases avg with
  | none => simp [alert_condition, qTruthy]
  | some a =>
      simp only [alert_condition, qTruthy, Bool.or_eq_true, Bool.and_eq_true,
        decide_eq_true_eq, Option.getD_some, Option.some.injEq]
      constructor
      · rintro (h | ⟨_, hgt⟩)
        · exact Or.inl h
        · exact Or.inr ⟨a, rfl, hgt⟩
      · rintro (h | ⟨b, hb, hgt⟩)
        · exact Or.inl h
        · subst hb
          exact Or.inr ⟨(hthr.trans hgt).ne', hgt⟩

/-! ### Claims -/

/-- C5: for every HTTP status code in `HTTP_CODES`, `get_status_description`
returns the exact registered reason phrase; for every integer not among the
keys it returns the literal fallback text; being a total pure Lean
function, it has no side effects and no failure modes. -/
theorem c5_get_status_description_correct :
    (∀ p ∈ HTTP_CODES, get_status_description p.1 = p.2) ∧
    (∀ code : Int, code ∉ HTTP_CODES.map Prod.fst →
      get_status_description code = "Unknown Status Code") := by
  constructor
  · decide
  · intro code h
    unfold get_status_description
    rw [lookup_eq_none_of_not_mem_keys _ _ h]
    rfl

/-- C5 witness: a registered code (418) and an unregistered one (600). -/
theorem c5_witness :
    get_status_description 418 = "I\x27m a Teapot" ∧
    get_status_description 600 = "Unknown Status Code" :=
  ⟨c5_get_status_description_correct.1 (418, "I\x27m a Teapot") (by decide),
   c5_get_status_description_correct.2 600 (by decide)⟩

/-- C10: in every invocation of `check_website`, regardless of branch,
`send_alert` is invoked at most once. -/
theorem c10_at_most_one_alert (url : String) (thr : ℚ) (env : ProbeEnv) :
    (check_website url thr env).1.length ≤ 1 := by
  cases hc : env.classification with
  | error e =>
      simp only [check_website, hc]
      cases env.alertFails <;> simp
  | ok code =>
      simp only [check_website, hc]
      split
      · cases env.alertFails <;> simp
      · simp

/-- C7: every result `dict` returned by `check_website` has exactly one of
the numeric status code and the error field present: the success branch
carries a code and no error, the failure branch an error and no code. -/
theorem c7_status_xor_error (url : String) (thr : ℚ) (env : ProbeEnv) :
    match (check_website url thr env).2 with
    | .ok r => r.status_code.isSome ≠ r.error.isSome
    | .error _ => True := by
  cases hc : env.classification with
  | error e =>
      simp only [check_website, hc]
      cases env.alertFails <;> simp
  | ok code =>
      simp only [check_website, hc]
      split_ifs <;> simp

/-- C2: when the classification GET fails with a connection-level error,
exactly one alert is dispatched, carrying sentinel status code 0, no
latency, and the error text; and the returned result (when `send_alert`
does not itself raise) has `error` set to the failure text, no status
code, and no latency value — even if some latency samples succeeded. -/
theorem c2_connection_failure (url : String) (thr : ℚ) (env : ProbeEnv)
    (e : String) (hc : env.classification = Except.error e) :
    (check_website url thr env).1 =
      [{ url := url, status_code := 0, speed := none, error := some e }] ∧
    ∀ r, (check_website url thr env).2 = Except.ok r →
      r.error = some e ∧ r.status_code = none ∧ r.speed = none := by
  simp only [check_website, hc]
  cases env.alertFails <;> simp

/-- C2 witness: a failing classification GET with two successful latency
samples still yields one sentinel-0 alert and no latency in it. -/
theorem c2_witness :
    (check_website "u" 2 ⟨fun _ => some 1, Except.error "boom", false⟩).1 =
      [{ url := "u", status_code := 0, speed := none, error := some "boom" }] :=
  (c2_connection_failure "u" 2 ⟨fun _ => some 1, Except.error "boom", false⟩
    "boom" rfl).1

/-- C6: when the classification GET succeeds with a status code different
from 200, exactly one alert is dispatched in that evaluation, and it
carries that status code. -/
theorem c6_nonok_code_alerts_once (url : String) (thr : ℚ) (env : ProbeEnv)
    (code : Int) (hc : env.classification = Except.ok code)
    (hne : code ≠ 200) :
    (check_website url thr env).1 =
      [{ url := url, status_code := code, speed := avg_speed_of env,
         error := none }] := by
  have hcond : alert_condition code (avg_speed_of env) thr = true := by
    simp [alert_condition, hne]
  simp only [check_website, hc, hcond, if_true]
  cases env.alertFails <;> simp

/-- C6 witness: classification code 503 dispatches exactly one alert
carrying 503. -/
theorem c6_witness :
    (check_website "u" 2 ⟨fun _ => none, Except.ok 503, false⟩).1 =
      [{ url := "u", status_code := 503, speed := none, error := none }] := by
  have h := c6_nonok_code_alerts_once "u" 2 ⟨fun _ => none, Except.ok 503, false⟩
    503 rfl (by decide)
  simpa [avg_speed_of, sampleSpeeds, List.finRange, List.filterMap] using h

/-- C1: when the classification GET succeeds and the threshold is positive
(the spec types `latencyThresholdSeconds` as a positive float), an alert
is dispatched iff the status code is not 200, or an average latency was
computed and exceeds the threshold; in particular no alert is dispatched
when the code is 200 and the computed average is at or below the
threshold. -/
theorem c1_alert_iff_bad_code_or_slow (url : String) (thr : ℚ) (env : ProbeEnv)
    (code : Int) (hc : env.classification = Except.ok code) (hthr : 0 < thr) :
    (check_website url thr env).1 ≠ [] ↔
      (code ≠ 200 ∨ ∃ a, avg_speed_of env = some a ∧ thr < a) := by
  rw [← alert_condition_true_iff code (avg_speed_of env) thr hthr]
  simp only [check_website, hc]
  cases hcond : alert_condition code (avg_speed_of env) thr
  · simp
  · cases env.alertFails <;> simp

/-- C1 witness: code 404 with positive threshold dispatches an alert. -/
theorem c1_witness :
    (check_website "u" 2 ⟨fun _ => none, Except.ok 404, false⟩).1 ≠ [] :=
  (c1_alert_iff_bad_code_or_slow "u" 2 ⟨fun _ => none, Except.ok 404, false⟩
    404 rfl (by norm_num)).mpr (Or.inl (by decide))

/-- C3 counterexample: when the alert channel raises (an SMTP failure is
not a `requests.RequestException`, so nothing in `check_website` catches
it), the exception propagates to the caller instead of a result being
returned — here with a successful classification GET returning 500. -/
theorem c3_counterexample :
    (check_website "u" 2 ⟨fun _ => none, Except.ok 500, true⟩).2 =
      Except.error "alert delivery failed" := by
  simp [check_website, alert_condition, avg_speed_of, sampleSpeeds]

/-- C3 (amended): `check_website` never propagates a network exception —
any `requests.RequestException` from the classification GET is caught and
converted into the error-branch result, and latency-sample failures are
swallowed per-attempt — so whenever the alert dispatch does not itself
raise, a result is returned; but an exception raised while dispatching
the alert does propagate to the caller. -/
theorem c3_no_raise_unless_alert_fails (url : String) (thr : ℚ)
    (env : ProbeEnv) (h : env.alertFails = false) :
    ((check_website url thr env).2).isOk = true := by
  cases hc : env.classification with
  | error e => simp [check_website, hc, h, Except.isOk, Except.toBool]
  | ok code =>
      cases h2 : alert_condition code (avg_speed_of env) thr <;>
        simp [check_website, hc, h, h2, Except.isOk, Except.toBool]

/-- C3 witness: with a working alert channel, a result is returned. -/
theorem c3_witness :
    ((check_website "u" 2 ⟨fun _ => none, Except.ok 200, false⟩).2).isOk = true :=
  c3_no_raise_unless_alert_fails "u" 2 ⟨fun _ => none, Except.ok 200, false⟩ rfl

/-- C9: when the computed average latency is exactly 0 and the
classification GET succeeds, the result's latency field is absent
(`round(avg_speed, 2) if avg_speed else None` tests truthiness, and `0.0`
is falsy), and the latency disjunct of the alert guard cannot fire for
any threshold: an alert is dispatched iff the code is not 200. -/
theorem c9_zero_average_truthiness (url : String) (thr : ℚ) (env : ProbeEnv)
    (code : Int) (hc : env.classification = Except.ok code)
    (havg : avg_speed_of env = some 0) :
    (match (check_website url thr env).2 with
     | .ok r => r.speed = none
     | .error _ => True) ∧
    ((check_website url thr env).1 ≠ [] ↔ code ≠ 200) := by
  have hcond : alert_condition code (avg_speed_of env) thr =
      decide (code ≠ 200) := by
    simp [alert_condition, havg, qTruthy]
  have hsp : qTruthy (avg_speed_of env) = false := by
    simp [havg, qTruthy]
  constructor
  · simp only [check_website, hc, hsp]
    split_ifs <;> simp_all
  · simp only [check_website, hc, hcond]
    cases hdec : decide (code ≠ 200) with
    | false => simpa using of_decide_eq_false hdec
    | true =>
        have := of_decide_eq_true hdec
        cases env.alertFails <;> simp_all

/-- C9 witness: all three samples succeed with elapsed time 0, the code is
200 and the threshold is even negative — still no alert is dispatched. -/
theorem c9_witness :
    (check_website "u" (-1) ⟨fun _ => some 0, Except.ok 200, false⟩).1 = [] := by
  have h := c9_zero_average_truthiness "u" (-1)
    ⟨fun _ => some 0, Except.ok 200, false⟩ 200 rfl
    (by simp [avg_speed_of, sampleSpeeds, List.finRange, List.filterMap])
  by_contra hne
  exact (h.2.mp hne) rfl

/-- C4 counterexample: all three latency samples succeed (each with elapsed
time 0), the classification GET returns 200, yet the result's latency
field is absent — refuting that it is absent exactly when zero of the
three attempts succeed.  The `round(avg_speed, 2) if avg_speed else None`
guard tests the truthiness of the average, and `0.0` is falsy. -/
theorem c4_counterexample :
    (sampleSpeeds ⟨fun _ => some 0, Except.ok 200, false⟩).length = 3 ∧
    (check_website "u" 2 ⟨fun _ => some 0, Except.ok 200, false⟩).2 =
      Except.ok { url := "u", status_code := some 200, status_display := "OK",
                  speed := none, error := none } := by
  refine ⟨rfl, ?_⟩
  have havg : avg_speed_of ⟨fun _ => some 0, Except.ok 200, false⟩ = some 0 := by
    simp [avg_speed_of, sampleSpeeds, List.finRange, List.filterMap]
  have hdesc : get_status_description 200 = "OK" := rfl
  simp [check_website, havg, alert_condition, qTruthy, hdesc]

/-- C4 (amended): every evaluation attempts exactly 3 latency-sampling GET
requests whose failed attempts are silently discarded (so at most 3
samples are recorded); in the success branch, the result's latency field
holds the arithmetic mean of the successful samples' elapsed times rounded
to 2 decimals, and it is absent exactly when zero of the three attempts
succeed or the computed mean equals 0 (the implementation tests the
average's truthiness, under which 0.0 counts as absent). -/
theorem speed_field_eq (env : ProbeEnv) :
    (if qTruthy (avg_speed_of env) then Option.map round2 (avg_speed_of env)
     else none) =
      (if sampleSpeeds env ≠ [] ∧
          (sampleSpeeds env).sum / ((sampleSpeeds env).length : ℚ) ≠ 0 then
        some (round2 ((sampleSpeeds env).sum / ((sampleSpeeds env).length : ℚ)))
      else none) := by
  rcases hse : sampleSpeeds env with _ | ⟨s, t⟩
  · simp [avg_speed_of, hse, qTruthy]
  · by_cases hm : ((s :: t).sum / (((s :: t).length : ℚ))) = 0 <;>
      simp [avg_speed_of, hse, qTruthy, hm]

theorem c4_latency_mean_of_samples (url : String) (thr : ℚ) (env : ProbeEnv)
    (code : Int) (hc : env.classification = Except.ok code) :
    (sampleSpeeds env).length ≤ 3 ∧
    (match (check_website url thr env).2 with
     | .ok r =>
        r.speed =
          if sampleSpeeds env ≠ [] ∧
              (sampleSpeeds env).sum / ((sampleSpeeds env).length : ℚ) ≠ 0 then
            some (round2 ((sampleSpeeds env).sum / ((sampleSpeeds env).length : ℚ)))
          else none
     | .error _ => True) := by
  refine ⟨?_, ?_⟩
  · have h := List.length_filterMap_le env.samples (List.finRange 3)
    simpa [sampleSpeeds] using h
  · simp only [check_website, hc]
    cases hac : alert_condition code (avg_speed_of env) thr with
    | true =>
        cases haf : env.alertFails with
        | true => simp
        | false =>
            simp only [if_true, Bool.false_eq_true, if_false, reduceIte]
            exact speed_field_eq env
    | false =>
        simp only [Bool.false_eq_true, if_false, reduceIte]
        exact speed_field_eq env

/-- C4 witness: all three samples fail, so the latency field is absent. -/
theorem c4_witness :
    (sampleSpeeds ⟨fun _ => none, Except.ok 200, false⟩).length ≤ 3 ∧
    (check_website "u" 2 ⟨fun _ => none, Except.ok 200, false⟩).2 =
      Except.ok { url := "u", status_code := some 200,
                  status_display := get_status_description 200,
                  speed := none, error := none } :=
  ⟨(c4_latency_mean_of_samples "u" 2 ⟨fun _ => none, Except.ok 200, false⟩
      200 rfl).1, rfl⟩

theorem filter_eq_key_of_filter_ne_key (l : List (String × ℚ)) (url : String) :
    (l.filter (fun p => p.1 ≠ url)).filter (fun p => p.1 = url) = [] := by
  induction l with
  | nil => rfl
  | cons p t ih => by_cases hp : p.1 = url <;> simp [List.filter_cons, hp, ih]

theorem filter_ne_key_of_not_mem (l : List (String × ℚ)) (url : String)
    (h : url ∉ l.map Prod.fst) : l.filter (fun p => p.1 ≠ url) = l := by
  induction l with
  | nil => rfl
  | cons p t ih =>
      simp only [List.map_cons, List.mem_cons, not_or] at h
      have hp : p.1 ≠ url := Ne.symm h.1
      simp [List.filter_cons, hp]
      intro a b hab h2
      exact h.2 (h2 ▸ List.mem_map_of_mem Prod.fst hab)

/-- C8: in the Configuration Store (modelled from the spec, its sqlite
implementation being absent from src), adding the same URL twice with
different thresholds leaves exactly one entry for that URL, carrying the
threshold given last; and removing a URL that is not present is a no-op,
not an error. -/
theorem c8_store_upsert_remove (store : List (String × ℚ)) (url : String)
    (t1 t2 : ℚ) (hnotin : url ∉ store.map Prod.fst) :
    (add_domain (add_domain store url t1) url t2).filter
        (fun p => p.1 = url) = [(url, t2)] ∧
    remove_domain store url = store := by
  constructor
  · simp only [add_domain]
    rw [List.filter_append, filter_eq_key_of_filter_ne_key]
    simp
  · exact filter_ne_key_of_not_mem store url hnotin

/-- C8 witness: upsert of "b" over a one-entry store and removal of the
absent "b". -/
theorem c8_witness :
    (add_domain (add_domain [("a", (1 : ℚ))] "b" 2) "b" 3).filter
        (fun p => p.1 = "b") = [("b", 3)] ∧
    remove_domain [("a", (1 : ℚ))] "b" = [("a", 1)] :=
  c8_store_upsert_remove [("a", 1)] "b" 2 3 (by decide)

end WebsiteMonitor
